import Mathlib

/-!
Verification of the conversation/connection state layer of the
foundation-voice-client-react repository.

The development shallowly embeds the two core hooks:

* `useConversationState` (src/react-sdk/src/hooks/useConversationState.ts):
  a reducer over transport events maintaining a conversation phase, three
  boolean flags, an append-only transcript log and two last-utterance
  pointers, plus the out-of-band `handleTranscriptUpdate` ingestion path
  with its 1000 ms deduplication rule.

* `useConnectionManager` (src/unnamed/part_000): connection lifecycle state
  with automatic reconnection, exponential backoff with jitter
  (`calculateReconnectDelay`) and a bounded attempt counter
  (`handleDisconnect`).

React `useState` cells become record fields; each event handler becomes a
pure step function on the record.  Timestamps (`Date.now()`, parsed ISO
strings) are embedded as integers (milliseconds); `Math.random()` becomes
an explicit rational parameter `rand` with `0 ≤ rand ≤ 1`; floating-point
arithmetic is embedded as exact rational arithmetic.
-/

namespace FoundationVoice

/-! ## Conversation state tracker (useConversationState.ts) -/

/-- The `speaker` field of a `Transcript` ("user" | "bot"). -/
inductive Speaker
  | user
  | bot
deriving DecidableEq, Repr

/-- The `Transcript` interface: `{ text, speaker, timestamp, final }`.
`timestamp` is milliseconds (`Date.now()` or a parsed ISO string). -/
structure Transcript where
  text : String
  speaker : Speaker
  timestamp : Int
  final : Bool
deriving DecidableEq, Repr

/-- The `role` field of a `TranscriptUpdate` ("user" | "assistant"). -/
inductive Role
  | user
  | assistant
deriving DecidableEq, Repr

/-- The out-of-band `TranscriptUpdate` message.  The source carries
`timestamp` as an ISO-8601 string and immediately converts it with
`new Date(update.timestamp).getTime()`; we embed the already-parsed
millisecond value. -/
structure TranscriptUpdate where
  role : Role
  content : String
  timestamp : Int
deriving DecidableEq, Repr

/-- The `ConversationState` enum: IDLE, USER_SPEAKING, BOT_PROCESSING,
BOT_SPEAKING. -/
inductive ConversationState
  | idle
  | userSpeaking
  | botProcessing
  | botSpeaking
deriving DecidableEq, Repr

/-- The tracker's `useState` cells gathered into one record. -/
structure ConversationContext where
  state : ConversationState
  isBotSpeaking : Bool
  isUserSpeaking : Bool
  isBotProcessing : Bool
  transcripts : List Transcript
  lastUserTranscript : Option String
  lastBotTranscript : Option String
deriving DecidableEq, Repr

/-- Initial values of the tracker's `useState` cells. -/
def initialContext : ConversationContext :=
  { state := .idle
    isBotSpeaking := false
    isUserSpeaking := false
    isBotProcessing := false
    transcripts := []
    lastUserTranscript := none
    lastBotTranscript := none }

/-- The transport events the tracker subscribes to.  `userTranscript` and
`botTranscript` carry `data.text` as an `Option String` (a missing field is
`none`; JavaScript treats the empty string as falsy, which the step
function mirrors) and `now` stands for `Date.now()` at arrival. -/
inductive ConvEvent
  | botStartedSpeaking
  | botStoppedSpeaking
  | userStartedSpeaking
  | userStoppedSpeaking
  | botLlmStarted
  | botLlmStopped
  | userTranscript (text : Option String) (final : Bool) (now : Int)
  | botTranscript (text : Option String) (now : Int)
deriving DecidableEq, Repr

/-- One event handler invocation of `useConversationState`: each branch is
the body of the corresponding `useRTVIClientEvent` callback (the custom
window events `bot-started-speaking` / `bot-stopped-speaking` run the same
bodies as the two bot RTVI events). -/
def convStep (ctx : ConversationContext) : ConvEvent → ConversationContext
  | .botStartedSpeaking =>
      { ctx with isBotSpeaking := true, state := .botSpeaking }
  | .botStoppedSpeaking =>
      { ctx with isBotSpeaking := false, state := .idle }
  | .userStartedSpeaking =>
      { ctx with isUserSpeaking := true, state := .userSpeaking }
  | .userStoppedSpeaking =>
      { ctx with isUserSpeaking := false, state := .botProcessing,
                 isBotProcessing := true }
  | .botLlmStarted =>
      { ctx with isBotProcessing := true }
  | .botLlmStopped =>
      { ctx with isBotProcessing := false }
  | .userTranscript text final now =>
      match text with
      | none => ctx
      | some t =>
          if t = "" then ctx
          else if final then
            { ctx with
                lastUserTranscript := some t
                transcripts := ctx.transcripts ++
                  [{ text := t, speaker := .user, timestamp := now,
                     final := final }] }
          else ctx
  | .botTranscript text now =>
      match text with
      | none => ctx
      | some t =>
          if t = "" then ctx
          else
            { ctx with
                lastBotTranscript := some t
                transcripts := ctx.transcripts ++
                  [{ text := t, speaker := .bot, timestamp := now,
                     final := true }] }

/-- Processing a sequence of events in delivery order. -/
def convSteps (ctx : ConversationContext) (evs : List ConvEvent) :
    ConversationContext :=
  evs.foldl convStep ctx

/-- The speaker a `TranscriptUpdate` role maps to
(`isAssistant ? "bot" : "user"`). -/
def roleSpeaker : Role → Speaker
  | .user => .user
  | .assistant => .bot

/-- The duplicate test of `handleTranscriptUpdate`: an existing entry `t`
with identical text, identical speaker and `Math.abs(t.timestamp -
timestamp) < 1000`. -/
def matchesExisting (u : TranscriptUpdate) (t : Transcript) : Bool :=
  t.text == u.content && t.speaker == roleSpeaker u.role
    && (t.timestamp - u.timestamp).natAbs < 1000

/-- The handler for server transcript updates: unconditionally update the
matching last-utterance pointer, then append a final entry unless a
duplicate already exists. -/
def handleTranscriptUpdate (ctx : ConversationContext)
    (update : TranscriptUpdate) : ConversationContext :=
  let transcript : Transcript :=
    { text := update.content, speaker := roleSpeaker update.role,
      timestamp := update.timestamp, final := true }
  let ctx1 :=
    match update.role with
    | .assistant => { ctx with lastBotTranscript := some update.content }
    | .user => { ctx with lastUserTranscript := some update.content }
  if ctx1.transcripts.any (matchesExisting update) then ctx1
  else { ctx1 with transcripts := ctx1.transcripts ++ [transcript] }

/-- The last-utterance pointer corresponding to an update's role. -/
def lastFor (ctx : ConversationContext) : Role → Option String
  | .user => ctx.lastUserTranscript
  | .assistant => ctx.lastBotTranscript

/-- The six speaking/processing events of the tracker's state machine
(no transcript payloads). -/
inductive SpeakEvent
  | botStartedSpeaking
  | botStoppedSpeaking
  | userStartedSpeaking
  | userStoppedSpeaking
  | botLlmStarted
  | botLlmStopped
deriving DecidableEq, Repr

/-- Injection of the speaking events into the full event type. -/
def SpeakEvent.toEvent : SpeakEvent → ConvEvent
  | .botStartedSpeaking => .botStartedSpeaking
  | .botStoppedSpeaking => .botStoppedSpeaking
  | .userStartedSpeaking => .userStartedSpeaking
  | .userStoppedSpeaking => .userStoppedSpeaking
  | .botLlmStarted => .botLlmStarted
  | .botLlmStopped => .botLlmStopped

/-- The phase assigned to an event by the transition table of the spec
(§4.1): `none` for the two LLM events, which change no phase. -/
def phaseOf : SpeakEvent → Option ConversationState
  | .botStartedSpeaking => some .botSpeaking
  | .botStoppedSpeaking => some .idle
  | .userStartedSpeaking => some .userSpeaking
  | .userStoppedSpeaking => some .botProcessing
  | .botLlmStarted => none
  | .botLlmStopped => none

/-- The spec's end-to-end scenario event sequence. -/
def scenarioEvents : List SpeakEvent :=
  [.userStartedSpeaking, .userStoppedSpeaking, .botLlmStarted,
   .botLlmStopped, .botStartedSpeaking, .botStoppedSpeaking]

/-- C1: For every sequence of speaking events, the tracker's phase equals
the phase the transition table assigns to the most recently processed
phase-changing event (last-write-wins; the starting phase if none); and
after the scenario sequence [UserStartedSpeaking, UserStoppedSpeaking,
BotLlmStarted, BotLlmStopped, BotStartedSpeaking, BotStoppedSpeaking] from
the initial context, the phase is Idle and isBotProcessing, isUserSpeaking,
isBotSpeaking are all false. -/
theorem conversation_phase_last_write_wins :
    (∀ (ctx : ConversationContext) (evs : List SpeakEvent),
      (convSteps ctx (evs.map SpeakEvent.toEvent)).state
        = (evs.filterMap phaseOf).getLastD ctx.state)
    ∧ (convSteps initialContext (scenarioEvents.map SpeakEvent.toEvent)).state
        = ConversationState.idle
    ∧ (convSteps initialContext
        (scenarioEvents.map SpeakEvent.toEvent)).isBotProcessing = false
    ∧ (convSteps initialContext
        (scenarioEvents.map SpeakEvent.toEvent)).isUserSpeaking = false
    ∧ (convSteps initialContext
        (scenarioEvents.map SpeakEvent.toEvent)).isBotSpeaking = false := by
  refine ⟨?_, by decide, by decide, by decide, by decide⟩
  intro ctx evs
  induction evs generalizing ctx with
  | nil => rfl
  | cons e rest ih =>
      cases e <;>
        simp only [List.map_cons, List.filterMap_cons, convSteps,
          List.foldl_cons, phaseOf, SpeakEvent.toEvent, List.getLastD_cons] <;>
        rw [← convSteps] <;> rw [ih] <;> rfl

/-- C10: `handleTranscriptUpdate` sets the last-utterance pointer matching
the update's role (lastBotTranscript for assistant, lastUserTranscript for
user) to the update's content unconditionally: the equation holds for every
starting context, in particular when the update is discarded as a duplicate
and the transcript log is left unchanged. -/
theorem transcript_update_pointer_unconditional :
    ∀ (ctx : ConversationContext) (update : TranscriptUpdate),
      lastFor (handleTranscriptUpdate ctx update) update.role
        = some update.content := by
  intro ctx update
  rcases update with ⟨role, content, ts⟩
  cases role <;>
    simp only [handleTranscriptUpdate, lastFor] <;>
    split <;> rfl

/-- C9: a user transcript event commits an entry and updates the
last-user-utterance pointer exactly when it is final with non-empty text
(interim events change nothing at all); a bot transcript event with
non-empty text is committed immediately as final; events with empty or
missing text leave the whole context unchanged. -/
theorem transcript_event_commit_rules :
    ∀ (ctx : ConversationContext) (t : String) (final : Bool) (now : Int),
      (t ≠ "" → final = true →
        convStep ctx (.userTranscript (some t) final now)
          = { ctx with
                lastUserTranscript := some t
                transcripts := ctx.transcripts ++
                  [{ text := t, speaker := .user, timestamp := now,
                     final := true }] })
      ∧ (final = false → convStep ctx (.userTranscript (some t) final now) = ctx)
      ∧ (t = "" → convStep ctx (.userTranscript (some t) final now) = ctx)
      ∧ convStep ctx (.userTranscript none final now) = ctx
      ∧ (t ≠ "" →
        convStep ctx (.botTranscript (some t) now)
          = { ctx with
                lastBotTranscript := some t
                transcripts := ctx.transcripts ++
                  [{ text := t, speaker := .bot, timestamp := now,
                     final := true }] })
      ∧ (t = "" → convStep ctx (.botTranscript (some t) now) = ctx)
      ∧ convStep ctx (.botTranscript none now) = ctx := by
  intro ctx t final now
  refine ⟨fun ht hf => ?_, fun hf => ?_, fun ht => ?_, rfl, fun ht => ?_,
    fun ht => ?_, rfl⟩
  · subst hf; simp [convStep, ht]
  · subst hf; simp [convStep]
  · simp [convStep, ht]
  · simp [convStep, ht]
  · simp [convStep, ht]

/-- Witness for C9 at a concrete context, text and flag. -/
theorem transcript_event_commit_rules_witness :
    convStep initialContext (.userTranscript (some "hi") true 5)
      = { initialContext with
            lastUserTranscript := some "hi"
            transcripts := [{ text := "hi", speaker := .user, timestamp := 5,
                              final := true }] }
    ∧ convStep initialContext (.userTranscript (some "hi") false 5)
        = initialContext :=
  ⟨(transcript_event_commit_rules initialContext "hi" true 5).1
      (by decide) rfl,
   (transcript_event_commit_rules initialContext "hi" false 5).2.1 rfl⟩

/-- C8: an out-of-band update is discarded (the log is unchanged) exactly
when an existing entry has identical text, identical speaker and a
timestamp strictly within 1000 ms; otherwise the entry is appended;
submitting the same update twice appends at most once (exactly once from a
duplicate-free log); and the boundary cases: against an existing
identical entry at time `T`, an update at `T + 999` is discarded while one
at `T + 1001` is appended. -/
theorem transcript_dedup_rule :
    (∀ (ctx : ConversationContext) (u : TranscriptUpdate),
      ((handleTranscriptUpdate ctx u).transcripts = ctx.transcripts
        ↔ ∃ t ∈ ctx.transcripts, t.text = u.content
            ∧ t.speaker = roleSpeaker u.role
            ∧ (t.timestamp - u.timestamp).natAbs < 1000))
    ∧ (∀ (ctx : ConversationContext) (u : TranscriptUpdate),
      (¬ ∃ t ∈ ctx.transcripts, t.text = u.content
            ∧ t.speaker = roleSpeaker u.role
            ∧ (t.timestamp - u.timestamp).natAbs < 1000) →
        (handleTranscriptUpdate ctx u).transcripts
          = ctx.transcripts ++
            [{ text := u.content, speaker := roleSpeaker u.role,
               timestamp := u.timestamp, final := true }])
    ∧ (∀ (ctx : ConversationContext) (u : TranscriptUpdate),
      (handleTranscriptUpdate (handleTranscriptUpdate ctx u) u).transcripts
        = (handleTranscriptUpdate ctx u).transcripts)
    ∧ (∀ T : Int,
      (handleTranscriptUpdate
        (handleTranscriptUpdate initialContext ⟨.user, "hello", T⟩)
        ⟨.user, "hello", T⟩).transcripts.length = 1)
    ∧ (∀ T : Int,
      (handleTranscriptUpdate
        { initialContext with
            transcripts := [{ text := "hello", speaker := .user,
                              timestamp := T, final := true }] }
        ⟨.user, "hello", T + 999⟩).transcripts
        = [{ text := "hello", speaker := .user, timestamp := T,
             final := true }])
    ∧ (∀ T : Int,
      (handleTranscriptUpdate
        { initialContext with
            transcripts := [{ text := "hello", speaker := .user,
                              timestamp := T, final := true }] }
        ⟨.user, "hello", T + 1001⟩).transcripts
        = [{ text := "hello", speaker := .user, timestamp := T,
             final := true },
           { text := "hello", speaker := .user, timestamp := T + 1001,
             final := true }]) := by
  have hpointer : ∀ (ctx : ConversationContext) (u : TranscriptUpdate),
      (match u.role with
        | Role.assistant => { ctx with lastBotTranscript := some u.content }
        | Role.user =>
            { ctx with lastUserTranscript := some u.content }).transcripts
        = ctx.transcripts := by
    intro ctx u; cases u.role <;> rfl
  have hmain : ∀ (ctx : ConversationContext) (u : TranscriptUpdate),
      (handleTranscriptUpdate ctx u).transcripts
        = if ctx.transcripts.any (matchesExisting u) then ctx.transcripts
          else ctx.transcripts ++
            [{ text := u.content, speaker := roleSpeaker u.role,
               timestamp := u.timestamp, final := true }] := by
    intro ctx u
    simp only [handleTranscriptUpdate, hpointer ctx u]
    split <;> simp_all [hpointer ctx u]
  have hany : ∀ (ctx : ConversationContext) (u : TranscriptUpdate),
      ctx.transcripts.any (matchesExisting u) = true
        ↔ ∃ t ∈ ctx.transcripts, t.text = u.content
            ∧ t.speaker = roleSpeaker u.role
            ∧ (t.timestamp - u.timestamp).natAbs < 1000 := by
    intro ctx u
    simp [List.any_eq_true, matchesExisting, and_assoc]
  have hiff : ∀ (ctx : ConversationContext) (u : TranscriptUpdate),
      (handleTranscriptUpdate ctx u).transcripts = ctx.transcripts
        ↔ ∃ t ∈ ctx.transcripts, t.text = u.content
            ∧ t.speaker = roleSpeaker u.role
            ∧ (t.timestamp - u.timestamp).natAbs < 1000 := by
    intro ctx u
    rw [hmain ctx u, ← hany ctx u]
    constructor
    · intro h
      by_contra hno
      rw [if_neg (by simpa using hno)] at h
      have hlen := congrArg List.length h
      simp at hlen
    · intro h; rw [if_pos h]
  refine ⟨hiff, ?_, ?_, ?_, ?_, ?_⟩
  · intro ctx u hno
    rw [hmain ctx u, if_neg (by rw [hany ctx u]; exact hno)]
  · intro ctx u
    rw [hiff]
    rw [hmain ctx u]
    split
    · rename_i h
      rw [hany ctx u] at h
      obtain ⟨t, ht, hp⟩ := h
      exact ⟨t, ht, hp⟩
    · exact ⟨{ text := u.content, speaker := roleSpeaker u.role,
               timestamp := u.timestamp, final := true },
             by simp, rfl, rfl, by simp⟩
  · intro T
    have h1 : (handleTranscriptUpdate initialContext
        ⟨.user, "hello", T⟩).transcripts
        = [{ text := "hello", speaker := .user, timestamp := T,
             final := true }] := by
      rw [hmain]; simp [initialContext, roleSpeaker]
    rw [hmain, h1]
    rw [if_pos (by simp [matchesExisting, roleSpeaker])]
    rfl
  · intro T
    rw [hmain]
    rw [if_pos ?_]
    simp only [List.any_cons, List.any_nil, Bool.or_false, matchesExisting]
    have : T - (T + 999) = -999 := by ring
    simp [this, roleSpeaker]
  · intro T
    rw [hmain]
    rw [if_neg ?_]
    · rfl
    simp only [List.any_cons, List.any_nil, Bool.or_false, matchesExisting]
    have : T - (T + 1001) = -1001 := by ring
    simp [this, roleSpeaker]

/-- Witness for C8 at concrete inputs: the double submission of
`{role: user, content: "hello", timestamp: 0}` leaves exactly one entry. -/
theorem transcript_dedup_rule_witness :
    (handleTranscriptUpdate
      (handleTranscriptUpdate initialContext ⟨.user, "hello", 0⟩)
      ⟨.user, "hello", 0⟩).transcripts.length = 1 :=
  transcript_dedup_rule.2.2.2.1 0

/-! ## Connection lifecycle manager (useConnectionManager, src/unnamed/part_000) -/

/-- The `ConnectionManagerOptions` with their default values filled in.
The numeric fields are milliseconds / a multiplier, embedded as exact
rationals. -/
structure ConnectionOptions where
  maxReconnectAttempts : Nat
  reconnectDelay : ℚ
  maxReconnectDelay : ℚ
  reconnectBackoffMultiplier : ℚ
deriving DecidableEq, Repr

/-- The option defaults: `maxReconnectAttempts = 5`, `reconnectDelay =
1000`, `maxReconnectDelay = 30000`, `reconnectBackoffMultiplier = 1.5`. -/
def defaultOptions : ConnectionOptions :=
  { maxReconnectAttempts := 5
    reconnectDelay := 1000
    maxReconnectDelay := 30000
    reconnectBackoffMultiplier := 3 / 2 }

/-- The `ConnectionState` record of the hook. -/
structure ConnectionState where
  isConnected : Bool
  isConnecting : Bool
  isReconnecting : Bool
  reconnectAttempts : Nat
  lastError : Option String
  transportState : String
deriving DecidableEq, Repr

/-- The hook's initial connection state (`transportState || "disconnected"`
with no transport state reported yet). -/
def initialConnectionState : ConnectionState :=
  { isConnected := false
    isConnecting := false
    isReconnecting := false
    reconnectAttempts := 0
    lastError := none
    transportState := "disconnected" }

/-- `transportState === "connected" || transportState === "ready"`. -/
def isConnectedTransport (s : String) : Bool :=
  s == "connected" || s == "ready"

/-- `calculateReconnectDelay`: exponential backoff with jitter.  `rand`
stands for the `Math.random()` draw, so the jitter factor is
`0.8 + rand * 0.4`; the result is capped at `maxReconnectDelay`. -/
def calculateReconnectDelay (opts : ConnectionOptions) (attempts : Nat)
    (rand : ℚ) : ℚ :=
  let baseDelay :=
    opts.reconnectDelay * opts.reconnectBackoffMultiplier ^ attempts
  let jitter := 4 / 5 + rand * (2 / 5)
  min (baseDelay * jitter) opts.maxReconnectDelay

/-- The delay `handleDisconnect` schedules from a given state: it passes
`nextAttempt = reconnectAttempts + 1`, the 1-based number of the upcoming
attempt, to `calculateReconnectDelay`. -/
def scheduledReconnectDelay (opts : ConnectionOptions)
    (st : ConnectionState) (rand : ℚ) : ℚ :=
  calculateReconnectDelay opts (st.reconnectAttempts + 1) rand

/-- The `handleDisconnect` listener for the transport's Disconnected
event.  The returned Boolean records whether a reconnection attempt was
scheduled (the `setTimeout` branch). -/
def handleDisconnect (opts : ConnectionOptions) (st : ConnectionState) :
    ConnectionState × Bool :=
  if st.isConnected ∧ st.reconnectAttempts < opts.maxReconnectAttempts then
    ({ st with isReconnecting := true,
               reconnectAttempts := st.reconnectAttempts + 1 }, true)
  else if opts.maxReconnectAttempts ≤ st.reconnectAttempts then
    ({ st with isReconnecting := false,
               lastError := some "Maximum reconnection attempts reached" },
     false)
  else (st, false)

/-- The `useEffect` body reacting to a transport state change: both
`setConnectionState` calls combined (the second fires only for
connected/ready values); the `if (!transportState) return` guard is the
empty-string case. -/
def onTransportStateChange (st : ConnectionState) (s : String) :
    ConnectionState :=
  if s = "" then st
  else
    let st1 :=
      { st with
          transportState := s
          isConnected := isConnectedTransport s
          isConnecting := s == "connecting"
          isReconnecting := st.isReconnecting && s == "connecting" }
    if isConnectedTransport s then
      { st1 with reconnectAttempts := 0, isReconnecting := false }
    else st1

/-- The externally triggered steps of the connection manager:
transport state changes, the Disconnected/Error listeners, the resolution
of the `connect()` and `disconnect()` calls, the failure callback of a
scheduled reconnection attempt, and `clearError()`. -/
inductive ConnStep
  | transportChange (s : String)
  | disconnectEvent
  | errorEvent (msg : Option String)
  | connectStart
  | connectSuccess
  | connectFailure (msg : Option String)
  | reconnectFailure (msg : Option String)
  | disconnectCall
  | clearError
deriving DecidableEq, Repr

/-- One step of the connection manager's state, each branch transcribing
the corresponding `setConnectionState` updates of the source. -/
def applyStep (opts : ConnectionOptions) (st : ConnectionState) :
    ConnStep → ConnectionState
  | .transportChange s => onTransportStateChange st s
  | .disconnectEvent => (handleDisconnect opts st).1
  | .errorEvent msg => { st with lastError := some (msg.getD "Unknown error") }
  | .connectStart => { st with isConnecting := true, lastError := none }
  | .connectSuccess => { st with isConnecting := false, reconnectAttempts := 0 }
  | .connectFailure msg =>
      { st with isConnecting := false,
                lastError := some (msg.getD "Connection failed") }
  | .reconnectFailure msg =>
      { st with
          lastError := some ("Reconnection failed: " ++ msg.getD "Unknown error") }
  | .disconnectCall =>
      { st with isConnected := false, isConnecting := false,
                isReconnecting := false }
  | .clearError => { st with lastError := none }

/-- Applying a sequence of steps in order. -/
def applySteps (opts : ConnectionOptions) (st : ConnectionState)
    (steps : List ConnStep) : ConnectionState :=
  steps.foldl (applyStep opts) st

/-- C2: the delay scheduled for an upcoming reconnection attempt equals
`min(reconnectDelay * reconnectBackoffMultiplier ^ attempt * jitter,
maxReconnectDelay)` with `attempt = reconnectAttempts + 1` (the 1-based
number of the upcoming attempt) and a jitter factor in [0.8, 1.2]; the
defaults are 1000 ms, 1.5 and 30000 ms. -/
theorem reconnect_delay_formula :
    (∀ (opts : ConnectionOptions) (st : ConnectionState) (rand : ℚ),
      0 ≤ rand → rand ≤ 1 →
      ∃ jitter : ℚ, 4 / 5 ≤ jitter ∧ jitter ≤ 6 / 5 ∧
        scheduledReconnectDelay opts st rand
          = min (opts.reconnectDelay
                * opts.reconnectBackoffMultiplier ^ (st.reconnectAttempts + 1)
                * jitter)
              opts.maxReconnectDelay)
    ∧ defaultOptions.reconnectDelay = 1000
    ∧ defaultOptions.reconnectBackoffMultiplier = 3 / 2
    ∧ defaultOptions.maxReconnectDelay = 30000 := by
  refine ⟨?_, rfl, rfl, rfl⟩
  intro opts st rand h0 h1
  exact ⟨4 / 5 + rand * (2 / 5), by linarith, by linarith, rfl⟩

/-- Witness for C2 at the default options, the initial state and the
median random draw. -/
theorem reconnect_delay_formula_witness :
    ∃ jitter : ℚ, 4 / 5 ≤ jitter ∧ jitter ≤ 6 / 5 ∧
      scheduledReconnectDelay defaultOptions initialConnectionState (1 / 2)
        = min (defaultOptions.reconnectDelay
              * defaultOptions.reconnectBackoffMultiplier
                ^ (initialConnectionState.reconnectAttempts + 1)
              * jitter)
            defaultOptions.maxReconnectDelay :=
  reconnect_delay_formula.1 defaultOptions initialConnectionState (1 / 2)
    (by norm_num) (by norm_num)

/-- C3 counterexample: with defaults and the median random draw (jitter
factor exactly 1), the delay scheduled for the first reconnection attempt
is 1500 ms, outside the claimed interval [800, 1200]: the exponent applied
for attempt 1 is 1, not 0. -/
theorem reconnect_delay_attempt_one_counterexample :
    scheduledReconnectDelay defaultOptions initialConnectionState (1 / 2)
      = 1500
    ∧ ¬ scheduledReconnectDelay defaultOptions initialConnectionState (1 / 2)
        ≤ 1200 := by
  constructor <;>
    norm_num [scheduledReconnectDelay, calculateReconnectDelay,
      defaultOptions, initialConnectionState]

/-- C3 amended: with default configuration the delay for attempt 1 lies in
[1200, 1800] ms (not [800, 1200]), the delay for attempt 3 lies in
[2700, 4050] ms, and every computed delay is at most 30000 ms. -/
theorem reconnect_delay_bounds :
    ∀ rand : ℚ, 0 ≤ rand → rand ≤ 1 →
      (1200 ≤ calculateReconnectDelay defaultOptions 1 rand
        ∧ calculateReconnectDelay defaultOptions 1 rand ≤ 1800)
      ∧ (2700 ≤ calculateReconnectDelay defaultOptions 3 rand
        ∧ calculateReconnectDelay defaultOptions 3 rand ≤ 4050)
      ∧ ∀ attempts : Nat,
          calculateReconnectDelay defaultOptions attempts rand ≤ 30000 := by
  intro rand h0 h1
  have e1 : calculateReconnectDelay defaultOptions 1 rand
      = min (1500 * (4 / 5 + rand * (2 / 5))) 30000 := by
    norm_num [calculateReconnectDelay, defaultOptions]
  have e3 : calculateReconnectDelay defaultOptions 3 rand
      = min (3375 * (4 / 5 + rand * (2 / 5))) 30000 := by
    norm_num [calculateReconnectDelay, defaultOptions]
  refine ⟨?_, ?_, ?_⟩
  · rw [e1, min_eq_left (by nlinarith)]
    constructor <;> nlinarith
  · rw [e3, min_eq_left (by nlinarith)]
    constructor <;> nlinarith
  · intro attempts
    calc calculateReconnectDelay defaultOptions attempts rand
        ≤ defaultOptions.maxReconnectDelay := min_le_right _ _
      _ ≤ 30000 := by norm_num [defaultOptions]

/-- Witness for C3's amended bounds at the extreme random draw 0. -/
theorem reconnect_delay_bounds_witness :
    (1200 ≤ calculateReconnectDelay defaultOptions 1 0
      ∧ calculateReconnectDelay defaultOptions 1 0 ≤ 1800)
    ∧ (2700 ≤ calculateReconnectDelay defaultOptions 3 0
      ∧ calculateReconnectDelay defaultOptions 3 0 ≤ 4050)
    ∧ ∀ attempts : Nat,
        calculateReconnectDelay defaultOptions attempts 0 ≤ 30000 :=
  reconnect_delay_bounds 0 (by norm_num) (by norm_num)

/-- C4: the Disconnected listener schedules a reconnection attempt exactly
when the manager believes it was previously connected and
`reconnectAttempts < maxReconnectAttempts`; when it schedules one it
increments `reconnectAttempts` by exactly 1 and raises the reconnecting
flag. -/
theorem disconnect_schedule_guard :
    ∀ (opts : ConnectionOptions) (st : ConnectionState),
      ((handleDisconnect opts st).2 = true
        ↔ st.isConnected = true
          ∧ st.reconnectAttempts < opts.maxReconnectAttempts)
      ∧ ((handleDisconnect opts st).2 = true →
          (handleDisconnect opts st).1.reconnectAttempts
            = st.reconnectAttempts + 1
          ∧ (handleDisconnect opts st).1.isReconnecting = true) := by
  intro opts st
  by_cases h : st.isConnected = true
      ∧ st.reconnectAttempts < opts.maxReconnectAttempts
  · simp [handleDisconnect, h]
  · simp only [handleDisconnect, if_neg h]
    split <;> simp [h]

/-- Witness for C4: one disconnect from a freshly connected state
schedules an attempt, moves the counter to 1 and raises the flag. -/
theorem disconnect_schedule_guard_witness :
    (handleDisconnect defaultOptions (onTransportStateChange initialConnectionState "connected")).1.reconnectAttempts = 1
    ∧ (handleDisconnect defaultOptions (onTransportStateChange initialConnectionState "connected")).1.isReconnecting = true :=
  (disconnect_schedule_guard defaultOptions
      (onTransportStateChange initialConnectionState "connected")).2
    (by decide)

/-- The state after a successful connection followed by 5 consecutive
unsolicited disconnect events (the transport keeps reporting no fresh
state in between, so the manager still believes it is connected). -/
def afterFiveDisconnects : ConnectionState :=
  applySteps defaultOptions initialConnectionState
    (ConnStep.transportChange "connected"
      :: List.replicate 5 ConnStep.disconnectEvent)

/-- The state after a 6th consecutive disconnect event. -/
def afterSixthDisconnect : ConnectionState :=
  (handleDisconnect defaultOptions afterFiveDisconnects).1

/-- C5 counterexample: after 5 consecutive unsolicited disconnects with
the default `maxReconnectAttempts = 5`, the manager is still in the
reconnecting phase and `lastError` is still unset: the terminal state the
claim describes is only entered on the next (6th) disconnect event. -/
theorem reconnect_budget_counterexample :
    afterFiveDisconnects.isReconnecting = true
    ∧ afterFiveDisconnects.lastError = none := by decide

/-- C5 amended: the 5 consecutive disconnects consume the whole attempt
budget (counter 5, still reconnecting, no error); the 6th disconnect
schedules no new attempt, clears the reconnecting flag and sets
`lastError = "Maximum reconnection attempts reached"`; and from then on
any further run of disconnect events schedules nothing and leaves the
state unchanged (until a manual connect()). -/
theorem reconnect_budget_amended :
    afterFiveDisconnects.reconnectAttempts = 5
    ∧ afterFiveDisconnects.isReconnecting = true
    ∧ afterFiveDisconnects.lastError = none
    ∧ (handleDisconnect defaultOptions afterFiveDisconnects).2 = false
    ∧ afterSixthDisconnect.isReconnecting = false
    ∧ afterSixthDisconnect.lastError
        = some "Maximum reconnection attempts reached"
    ∧ (handleDisconnect defaultOptions afterSixthDisconnect).2 = false
    ∧ ∀ more : List ConnStep,
        (∀ x ∈ more, x = ConnStep.disconnectEvent) →
        applySteps defaultOptions afterSixthDisconnect more
          = afterSixthDisconnect := by
  have hfix : applyStep defaultOptions afterSixthDisconnect
      ConnStep.disconnectEvent = afterSixthDisconnect := by decide
  refine ⟨by decide, by decide, by decide, by decide, by decide, by decide,
    by decide, ?_⟩
  intro more
  induction more with
  | nil => intro _; rfl
  | cons x rest ih =>
      intro hmore
      have hx := hmore x (List.mem_cons_self x rest)
      subst hx
      have hstep : applySteps defaultOptions afterSixthDisconnect
          (ConnStep.disconnectEvent :: rest)
          = applySteps defaultOptions afterSixthDisconnect rest := by
        simp only [applySteps, List.foldl_cons, hfix]
      rw [hstep]
      exact ih fun y hy => hmore y (List.mem_cons_of_mem _ hy)

/-- Witness for C5's amended claim: one further disconnect event after the
terminal state changes nothing. -/
theorem reconnect_budget_amended_witness :
    applySteps defaultOptions afterSixthDisconnect [ConnStep.disconnectEvent]
      = afterSixthDisconnect :=
  reconnect_budget_amended.2.2.2.2.2.2.2 [ConnStep.disconnectEvent]
    (by simp)

/-- A reachable state with a nonzero attempt counter just before a manual
`connect()` resolves: connected, one unsolicited disconnect, the transport
then reports "disconnected", and a manual connect is started. -/
def beforeManualReconnect : ConnectionState :=
  applySteps defaultOptions initialConnectionState
    [ConnStep.transportChange "connected", ConnStep.disconnectEvent,
     ConnStep.transportChange "disconnected", ConnStep.connectStart]

/-- C6 counterexample: in the reachable state `beforeManualReconnect` the
counter is 1 and the raw transport state is "disconnected"; the successful
resolution of the manual `connect()` resets the counter to 0 even though
no transition of the raw transport state into a connected/ready value
takes place at that step. -/
theorem attempts_reset_counterexample :
    beforeManualReconnect.reconnectAttempts = 1
    ∧ beforeManualReconnect.transportState = "disconnected"
    ∧ (applyStep defaultOptions beforeManualReconnect
        ConnStep.connectSuccess).reconnectAttempts = 0
    ∧ (applyStep defaultOptions beforeManualReconnect
        ConnStep.connectSuccess).transportState = "disconnected" := by
  decide

/-- C6 amended: `reconnectAttempts` is reset to 0 exactly by the steps
that are a raw transport transition into "connected" or "ready" or the
successful resolution of a manual `connect()`: each of those steps resets
the counter, and any other step yielding a zero counter started from a
zero counter. -/
theorem attempts_reset_exactly :
    ∀ (opts : ConnectionOptions) (st : ConnectionState) (step : ConnStep),
      ((step = ConnStep.transportChange "connected"
          ∨ step = ConnStep.transportChange "ready"
          ∨ step = ConnStep.connectSuccess) →
        (applyStep opts st step).reconnectAttempts = 0)
      ∧ ((applyStep opts st step).reconnectAttempts = 0 →
          st.reconnectAttempts = 0
          ∨ step = ConnStep.transportChange "connected"
          ∨ step = ConnStep.transportChange "ready"
          ∨ step = ConnStep.connectSuccess) := by
  intro opts st step
  constructor
  · rintro (rfl | rfl | rfl) <;>
      simp [applyStep, onTransportStateChange, isConnectedTransport]
  · cases step with
    | transportChange s =>
        simp only [applyStep, onTransportStateChange]
        by_cases hs : s = ""
        · rw [if_pos hs]; exact fun h => Or.inl h
        · rw [if_neg hs]
          by_cases hc : isConnectedTransport s = true
          · intro _
            rcases (by simpa [isConnectedTransport] using hc :
                s = "connected" ∨ s = "ready") with h | h <;>
              subst h
            · exact Or.inr (Or.inl rfl)
            · exact Or.inr (Or.inr (Or.inl rfl))
          · rw [if_neg hc]; exact fun h => Or.inl h
    | disconnectEvent =>
        simp only [applyStep, handleDisconnect]
        split
        · simp
        · split <;> exact fun h => Or.inl h
    | errorEvent msg => exact fun h => Or.inl h
    | connectStart => exact fun h => Or.inl h
    | connectSuccess => exact fun _ => Or.inr (Or.inr (Or.inr rfl))
    | connectFailure msg => exact fun h => Or.inl h
    | reconnectFailure msg => exact fun h => Or.inl h
    | disconnectCall => exact fun h => Or.inl h
    | clearError => exact fun h => Or.inl h

/-- Witness for C6's amended claim: the connect-success step at the
concrete state with counter 1 resets it to 0. -/
theorem attempts_reset_exactly_witness :
    (applyStep defaultOptions beforeManualReconnect
      ConnStep.connectSuccess).reconnectAttempts = 0 :=
  (attempts_reset_exactly defaultOptions beforeManualReconnect
      ConnStep.connectSuccess).1 (Or.inr (Or.inr rfl))

/-- The reachable state right after an unsolicited disconnect from a
connected transport. -/
def reconnectingAfterDisconnect : ConnectionState :=
  applySteps defaultOptions initialConnectionState
    [ConnStep.transportChange "connected", ConnStep.disconnectEvent]

/-- C7 counterexample: in the reachable state right after a disconnect
event the reconnecting flag is raised while the raw transport state is
still "connected", not a "connecting" value. -/
theorem reconnecting_invariant_counterexample :
    reconnectingAfterDisconnect.isReconnecting = true
    ∧ reconnectingAfterDisconnect.transportState = "connected"
    ∧ reconnectingAfterDisconnect.transportState ≠ "connecting" := by
  decide

/-- The state invariant behind C7: the reconnecting flag implies the
stored transport state is "connecting" or still a connected/ready value,
and the connected flag implies a connected/ready transport state. -/
def ConnInv (st : ConnectionState) : Prop :=
  (st.isReconnecting = true →
    st.transportState = "connecting" ∨ st.transportState = "connected"
      ∨ st.transportState = "ready")
  ∧ (st.isConnected = true →
    st.transportState = "connected" ∨ st.transportState = "ready")

/-- Every step of the connection manager preserves `ConnInv`. -/
theorem connInv_step (opts : ConnectionOptions) (st : ConnectionState)
    (step : ConnStep) (h : ConnInv st) : ConnInv (applyStep opts st step) := by
  cases step with
  | transportChange s =>
      simp only [applyStep, onTransportStateChange]
      by_cases hs : s = ""
      · rw [if_pos hs]; exact h
      · rw [if_neg hs]
        by_cases hc : isConnectedTransport s = true
        · rw [if_pos hc]
          rcases (by simpa [isConnectedTransport] using hc :
              s = "connected" ∨ s = "ready") with hl | hl <;>
            subst hl <;>
            exact ⟨fun hfalse => by simp at hfalse, fun _ => by simp⟩
        · rw [if_neg hc]
          refine ⟨fun hr => ?_, fun hcon => ?_⟩
          · have : (s == "connecting") = true := by
              cases hb : (s == "connecting") with
              | true => rfl
              | false => rw [hb] at hr; simp at hr
            exact Or.inl (by simpa using this)
          · exact absurd hcon (by simp [hc])
  | disconnectEvent =>
      simp only [applyStep, handleDisconnect]
      split
      · rename_i hcond
        exact ⟨fun _ => Or.inr (h.2 hcond.1), h.2⟩
      · split
        · exact ⟨fun hfalse => by simp at hfalse, h.2⟩
        · exact h
  | errorEvent msg => exact h
  | connectStart => exact h
  | connectSuccess => exact h
  | connectFailure msg => exact h
  | reconnectFailure msg => exact h
  | disconnectCall =>
      refine ⟨fun hfalse => ?_, fun hfalse => ?_⟩ <;>
        simp [applyStep] at hfalse
  | clearError => exact h

/-- `ConnInv` holds along every step sequence. -/
theorem connInv_steps (opts : ConnectionOptions) (steps : List ConnStep) :
    ∀ st : ConnectionState, ConnInv st → ConnInv (applySteps opts st steps) := by
  induction steps with
  | nil => exact fun st h => h
  | cons x rest ih =>
      exact fun st h => ih (applyStep opts st x) (connInv_step opts st x h)

/-- Whether the manager currently believes a connection exists or is
being re-established. -/
def hadConn (st : ConnectionState) : Bool :=
  st.isReconnecting || st.isConnected

/-- A step can only raise `hadConn` through a transport transition into a
connected/ready value. -/
theorem hadConn_step (opts : ConnectionOptions) (st : ConnectionState)
    (step : ConnStep) (h : hadConn (applyStep opts st step) = true) :
    hadConn st = true ∨ step = ConnStep.transportChange "connected"
      ∨ step = ConnStep.transportChange "ready" := by
  cases step with
  | transportChange s =>
      simp only [applyStep, onTransportStateChange] at h
      by_cases hs : s = ""
      · rw [if_pos hs] at h; exact Or.inl h
      · rw [if_neg hs] at h
        by_cases hc : isConnectedTransport s = true
        · rcases (by simpa [isConnectedTransport] using hc :
              s = "connected" ∨ s = "ready") with hl | hl <;> subst hl
          · exact Or.inr (Or.inl rfl)
          · exact Or.inr (Or.inr rfl)
        · rw [if_neg hc] at h
          simp only [hadConn, Bool.or_eq_true] at h ⊢
          rcases h with h | h
          · have hh : st.isReconnecting = true ∧ s = "connecting" := by
              simpa using h
            exact Or.inl (Or.inl hh.1)
          · exact absurd h (by simp [hc])
  | disconnectEvent =>
      simp only [applyStep, handleDisconnect] at h
      split at h
      · rename_i hcond
        exact Or.inl (by simp [hadConn, hcond.1])
      · split at h
        · simp only [hadConn, Bool.or_eq_true] at h ⊢
          rcases h with h | h
          · simp at h
          · exact Or.inl (Or.inr h)
        · exact Or.inl h
  | errorEvent msg => exact Or.inl h
  | connectStart => exact Or.inl h
  | connectSuccess => exact Or.inl h
  | connectFailure msg => exact Or.inl h
  | reconnectFailure msg => exact Or.inl h
  | disconnectCall =>
      simp [applyStep, hadConn] at h
  | clearError => exact Or.inl h

/-- Along any step sequence, `hadConn` can only become true if some step
of the sequence was a transport transition into a connected/ready value. -/
theorem hadConn_trace (opts : ConnectionOptions) (steps : List ConnStep) :
    ∀ st : ConnectionState, hadConn (applySteps opts st steps) = true →
      hadConn st = true
      ∨ ∃ x ∈ steps, x = ConnStep.transportChange "connected"
          ∨ x = ConnStep.transportChange "ready" := by
  induction steps with
  | nil => exact fun st h => Or.inl h
  | cons e rest ih =>
      intro st h
      rcases ih (applyStep opts st e) h with h1 | h2
      · rcases hadConn_step opts st e h1 with h3 | h4
        · exact Or.inl h3
        · exact Or.inr ⟨e, List.mem_cons_self e rest, h4⟩
      · obtain ⟨x, hx, hx2⟩ := h2
        exact Or.inr ⟨x, List.mem_cons_of_mem _ hx, hx2⟩

/-- C7 amended: in every reachable connection-manager state the
reconnecting flag is raised only if a prior successful connection existed
(some step of the history was a transport transition into connected or
ready) and the stored raw transport state is "connecting" or is still the
connected/ready value observed before the disconnect event (the latter
occurs in the window between a disconnect event and the transport's next
state report, which the claim's "only while connecting" wording misses). -/
theorem reconnecting_invariant_amended :
    ∀ (opts : ConnectionOptions) (steps : List ConnStep),
      (applySteps opts initialConnectionState steps).isReconnecting = true →
        ((applySteps opts initialConnectionState steps).transportState
            = "connecting"
          ∨ (applySteps opts initialConnectionState steps).transportState
            = "connected"
          ∨ (applySteps opts initialConnectionState steps).transportState
            = "ready")
        ∧ ∃ x ∈ steps, x = ConnStep.transportChange "connected"
            ∨ x = ConnStep.transportChange "ready" := by
  intro opts steps h
  have hinv := connInv_steps opts steps initialConnectionState
    ⟨fun hfalse => by simp [initialConnectionState] at hfalse,
     fun hfalse => by simp [initialConnectionState] at hfalse⟩
  refine ⟨hinv.1 h, ?_⟩
  have hh : hadConn (applySteps opts initialConnectionState steps) = true := by
    simp [hadConn, h]
  rcases hadConn_trace opts steps initialConnectionState hh with h1 | h2
  · exact absurd h1 (by decide)
  · exact h2

/-- Witness for C7's amended invariant at the concrete two-step history
[transportChange "connected", disconnectEvent]. -/
theorem reconnecting_invariant_amended_witness :
    ((applySteps defaultOptions initialConnectionState
        [ConnStep.transportChange "connected", ConnStep.disconnectEvent]).transportState
          = "connecting"
      ∨ (applySteps defaultOptions initialConnectionState
        [ConnStep.transportChange "connected", ConnStep.disconnectEvent]).transportState
          = "connected"
      ∨ (applySteps defaultOptions initialConnectionState
        [ConnStep.transportChange "connected", ConnStep.disconnectEvent]).transportState
          = "ready")
    ∧ ∃ x ∈ [ConnStep.transportChange "connected", ConnStep.disconnectEvent],
        x = ConnStep.transportChange "connected"
          ∨ x = ConnStep.transportChange "ready" :=
  reconnecting_invariant_amended defaultOptions
    [ConnStep.transportChange "connected", ConnStep.disconnectEvent]
    (by decide)

end FoundationVoice
